import Mathlib

/-!
Shallow embedding of the resource-management core of the kvm-mcp repository:
the VM inventory cache (src/kvm_mcp/cache/vm_cache.py), the libvirt
connection pool (src/kvm_mcp/connection/pool.py) and the VM operations that
compose them (src/kvm_mcp/vm/management.py, src/kvm_mcp/vm/creation.py).

Time is modelled by integers (`Int`), read from an explicit `now` parameter
where the Python source calls `time.time()`.  Cache values are opaque
(`α`).  Fallible external calls (libvirt, subprocess) are modelled by
explicit outcome parameters, so each Python function becomes a pure Lean
function of its state and of the outcomes of the external calls it makes.
-/

namespace KvmMcp

/-- A cache entry of `VMInfoCache`: a key (a VM name or the sentinel key
representing the full inventory), the stored value and the insertion
timestamp.  The two Python dicts `self.cache` and `self.timestamps` of
vm_cache.py always hold exactly the same keys and are updated together, so
they are embedded as one association list kept in dict insertion order
(Python dicts preserve insertion order, and assigning to an existing key
keeps its position). -/
structure Entry (α : Type) where
  key : String
  val : α
  ts : Int
deriving DecidableEq

/-- State of a `VMInfoCache` instance (vm_cache.py lines 6-13). -/
structure VMInfoCache (α : Type) where
  max_size : Nat
  ttl : Int
  entries : List (Entry α)
deriving DecidableEq

/-- VMInfoCache.get (vm_cache.py lines 15-23): return the cached value when
the key is present and `time.time() - self.timestamps[vm_name] < self.ttl`;
when the key is present but expired, delete it (`del` on both dicts) and
return `None`; when the key is absent return `None`.  The current time is
the explicit `now` argument. -/
def VMInfoCache.get {α : Type} (c : VMInfoCache α) (now : Int) (k : String) :
    Option α × VMInfoCache α :=
  match c.entries.find? (fun e => e.key == k) with
  | some e =>
      if now - e.ts < c.ttl then (some e.val, c)
      else (none, { c with entries := c.entries.filter (fun e => e.key != k) })
  | none => (none, c)

/-- The effect of the Python dict assignments `self.cache[vm_name] = vm_info;
self.timestamps[vm_name] = time.time()` at the end of VMInfoCache.set: when
the key is present its value and timestamp are replaced in place (insertion
order keeps its position), otherwise a new entry is appended at the end. -/
def upsert {α : Type} (es : List (Entry α)) (k : String) (v : α) (now : Int) :
    List (Entry α) :=
  match es with
  | [] => [⟨k, v, now⟩]
  | e :: rest =>
      if e.key == k then ⟨k, v, now⟩ :: rest
      else e :: upsert rest k v now

/-- The key chosen by `min(self.timestamps.items(), key=lambda x: x[1])[0]`
in VMInfoCache.set: the first entry, in dict iteration (= insertion) order,
whose timestamp is minimal.  Python's `min` raises ValueError on an empty
sequence; that case is modelled by `none`. -/
def oldestKey {α : Type} (es : List (Entry α)) : Option String :=
  match es with
  | [] => none
  | e :: rest =>
      some (rest.foldl (fun best x => if x.ts < best.ts then x else best) e).key

/-- VMInfoCache.set (vm_cache.py lines 25-34).  When
`len(self.cache) >= self.max_size` the entry with the smallest timestamp is
deleted first — note that this happens whether or not the key being written
is already present.  The new entry is then written and always stamped with
the current time.  The result `none` models the ValueError that Python's
`min` raises when the eviction branch fires on an empty cache (reachable
with `max_size = 0`). -/
def VMInfoCache.set {α : Type} (c : VMInfoCache α) (now : Int) (k : String)
    (v : α) : Option (VMInfoCache α) :=
  if c.max_size ≤ c.entries.length then
    match oldestKey c.entries with
    | none => none
    | some old =>
        some { c with
          entries := upsert (c.entries.filter (fun e => e.key != old)) k v now }
  else
    some { c with entries := upsert c.entries k v now }

/-- VMInfoCache.invalidate (vm_cache.py lines 36-44).  The Python guard is
`if vm_name:` — truthiness — so passing the empty string clears the whole
cache exactly as passing `None` does; a truthy key is deleted when present
and ignored otherwise. -/
def VMInfoCache.invalidate {α : Type} (c : VMInfoCache α) (k : Option String) :
    VMInfoCache α :=
  match k with
  | some s =>
      if s == "" then { c with entries := [] }
      else { c with entries := c.entries.filter (fun e => e.key != s) }
  | none => { c with entries := [] }

/-- Well-formedness of a cache state: keys are unique, which every state of
the Python dicts satisfies. -/
def VMInfoCache.WF {α : Type} (c : VMInfoCache α) : Prop :=
  (c.entries.map Entry.key).Nodup

/-- An opaque libvirt connection handle. -/
structure Conn where
  id : Nat
deriving DecidableEq

/-- Mutable state of `LibvirtConnectionPool` (pool.py lines 8-17): the
asyncio queue of available connections (head is handed out next) and the
`active_connections` counter.  `uri`, `max_connections` and `timeout` are
fixed configuration.  The counter is an integer: the code decrements it for
dead handles that were never counted (a timeout-fallback handle), so it can
drift below zero. -/
structure PoolState where
  queue : List Conn
  active : Int
deriving DecidableEq

/-- Outcome of one call to `libvirt.open(self.uri)`: a truthy handle, a
falsy return value, or a raised libvirtError carrying its message. -/
inductive OpenResult where
  | ok (c : Conn)
  | nullConn
  | err (msg : String)
deriving DecidableEq

/-- Result of the checkout phase of `get_connection` (pool.py lines 36-48). -/
inductive AcquireResult where
  | fromPool (c : Conn)
  | fresh (c : Conn)
  | failed (msg : String)
deriving DecidableEq

/-- The checkout phase of LibvirtConnectionPool.get_connection (pool.py
lines 36-48), in the single-worker scheduling model of the source: when the
queue is non-empty, `asyncio.wait_for(self.connections.get(), self.timeout)`
returns its head at once; when it is empty nothing can refill it during the
wait, so `asyncio.TimeoutError` fires and a brand-new handle is opened on
the spot — `fallbackOpen` is the outcome of that `libvirt.open` call.  A
falsy fallback handle raises
`libvirt.libvirtError("Failed to connect to libvirt daemon")`; an open that
itself raises propagates its own libvirtError (re-raised by the
`except libvirt.libvirtError` clause). -/
def acquire (s : PoolState) (fallbackOpen : OpenResult) :
    AcquireResult × PoolState :=
  match s.queue with
  | c :: rest => (.fromPool c, { s with queue := rest })
  | [] =>
      match fallbackOpen with
      | .ok c => (.fresh c, s)
      | .nullConn => (.failed "Failed to connect to libvirt daemon", s)
      | .err m => (.failed m, s)

/-- Outcomes of the external calls made by the release path of
`get_connection` (pool.py lines 52-77): whether `conn.getVersion()`
succeeds, whether `conn.close()` succeeds, and the outcome of the
replacement `libvirt.open`. -/
structure ReleaseEnv where
  alive : Bool
  closeOk : Bool
  replacement : OpenResult
deriving DecidableEq

/-- The `finally` block of get_connection (pool.py lines 52-77): a live
handle is appended back to the queue; for a dead handle the
`active_connections` decrement sits inside the same bare
`try: … except: pass` as `conn.close()`, so a failing close also skips the
decrement; then exactly one replacement open is attempted, and its handle is
enqueued and counted only when truthy — replacement failures are logged and
swallowed. -/
def release (s : PoolState) (c : Conn) (env : ReleaseEnv) : PoolState :=
  if env.alive then { s with queue := s.queue ++ [c] }
  else
    let s1 := if env.closeOk then { s with active := s.active - 1 } else s
    match env.replacement with
    | .ok nc => { s1 with queue := s1.queue ++ [nc], active := s1.active + 1 }
    | _ => s1

/-- All external outcomes of one pass through `get_connection`. -/
structure LeaseEnv where
  fallbackOpen : OpenResult
  releaseEnv : ReleaseEnv
deriving DecidableEq

/-- One full `async with connection_pool.get_connection() as conn:` scope.
The wrapped body returns `Except.ok` on normal completion and
`Except.error` when it raises a libvirtError, which the pool re-raises
unchanged; on both exits the `finally` release runs.  When the checkout
itself failed no connection was yielded (`conn` is falsy in the `finally`
block), so nothing is released. -/
def withConnection {β : Type} (s : PoolState) (env : LeaseEnv)
    (body : Conn → Except String β) : Except String β × PoolState :=
  match acquire s env.fallbackOpen with
  | (.fromPool c, s1) => (body c, release s1 c env.releaseEnv)
  | (.fresh c, s1) => (body c, release s1 c env.releaseEnv)
  | (.failed m, s1) => (.error m, s1)

/-- The reply dict of start_vm/stop_vm/reboot_vm: the `success` flag plus
the message (`message` on success, `error` on failure). -/
structure OpResult where
  success : Bool
  text : String
deriving DecidableEq

/-- Outcomes of the libvirt domain calls made by one mutating operation
(management.py): `conn.lookupByName(vm_name)`, `domain.isActive()` and the
single lifecycle verb (`create`, `destroy`/`shutdown`, or `reboot`).
`Except.error` carries the message of the raised libvirtError. -/
structure DomainEnv where
  lookup : Except String Unit
  isActive : Except String Bool
  verb : Except String Unit

/-- Body of start_vm (management.py lines 56-70): look up the domain, fail
when it is already active, call `domain.create()`, then invalidate the
per-VM key and the sentinel key "_all_vms_" and return success; every
libvirtError raised inside the `try` is caught and returned as a
`success: False` dict.  Result: the reply, the keys passed to
`vm_info_cache.invalidate` in call order, and the number of times the
lifecycle verb was invoked. -/
def startVMBody (env : DomainEnv) (vm_name : String) :
    OpResult × List String × Nat :=
  match env.lookup with
  | .error m => (⟨false, "Failed to start VM: " ++ m⟩, [], 0)
  | .ok _ =>
      match env.isActive with
      | .error m => (⟨false, "Failed to start VM: " ++ m⟩, [], 0)
      | .ok true => (⟨false, "VM is already running"⟩, [], 0)
      | .ok false =>
          match env.verb with
          | .error m => (⟨false, "Failed to start VM: " ++ m⟩, [], 1)
          | .ok _ =>
              (⟨true, "VM " ++ vm_name ++ " started successfully"⟩,
                [vm_name, "_all_vms_"], 1)

/-- Body of stop_vm (management.py lines 73-91): like start_vm but the
precondition is that the domain is active, and the single verb is
`domain.destroy()` when `force` else `domain.shutdown()`. -/
def stopVMBody (env : DomainEnv) (vm_name : String) (force : Bool) :
    OpResult × List String × Nat :=
  match env.lookup with
  | .error m => (⟨false, "Failed to stop VM: " ++ m⟩, [], 0)
  | .ok _ =>
      match env.isActive with
      | .error m => (⟨false, "Failed to stop VM: " ++ m⟩, [], 0)
      | .ok false => (⟨false, "VM is not running"⟩, [], 0)
      | .ok true =>
          match env.verb with
          | .error m => (⟨false, "Failed to stop VM: " ++ m⟩, [], 1)
          | .ok _ =>
              (⟨true, "VM " ++ vm_name ++ " " ++
                  (if force then "destroyed" else "shutdown") ++
                  " successfully"⟩,
                [vm_name, "_all_vms_"], 1)

/-- Body of reboot_vm (management.py lines 94-108): precondition is an
active domain; the single verb is `domain.reboot()`. -/
def rebootVMBody (env : DomainEnv) (vm_name : String) :
    OpResult × List String × Nat :=
  match env.lookup with
  | .error m => (⟨false, "Failed to reboot VM: " ++ m⟩, [], 0)
  | .ok _ =>
      match env.isActive with
      | .error m => (⟨false, "Failed to reboot VM: " ++ m⟩, [], 0)
      | .ok false => (⟨false, "VM is not running"⟩, [], 0)
      | .ok true =>
          match env.verb with
          | .error m => (⟨false, "Failed to reboot VM: " ++ m⟩, [], 1)
          | .ok _ =>
              (⟨true, "VM " ++ vm_name ++ " rebooted successfully"⟩,
                [vm_name, "_all_vms_"], 1)

/-- A mutating operation's full run: lease a pooled connection
(`async with connection_pool.get_connection() as conn:`), run the body,
apply its cache invalidations to `vm_info_cache`, release the connection on
the way out.  When the checkout fails, the libvirtError propagates to the
caller (`Except.error`) before the body runs, and the cache is untouched. -/
def runMgmt {α : Type} (pool : PoolState) (cache : VMInfoCache α)
    (lenv : LeaseEnv) (body : OpResult × List String × Nat) :
    Except String OpResult × PoolState × VMInfoCache α × Nat :=
  match acquire pool lenv.fallbackOpen with
  | (.failed m, p1) => (.error m, p1, cache, 0)
  | (.fromPool c, p1) =>
      (.ok body.1, release p1 c lenv.releaseEnv,
        body.2.1.foldl (fun cc k => cc.invalidate (some k)) cache, body.2.2)
  | (.fresh c, p1) =>
      (.ok body.1, release p1 c lenv.releaseEnv,
        body.2.1.foldl (fun cc k => cc.invalidate (some k)) cache, body.2.2)

/-- start_vm (management.py lines 56-70) composed with the pool and the
cache. -/
def startVM {α : Type} (pool : PoolState) (cache : VMInfoCache α)
    (lenv : LeaseEnv) (denv : DomainEnv) (vm_name : String) :
    Except String OpResult × PoolState × VMInfoCache α × Nat :=
  runMgmt pool cache lenv (startVMBody denv vm_name)

/-- stop_vm (management.py lines 73-91) composed with the pool and the
cache. -/
def stopVM {α : Type} (pool : PoolState) (cache : VMInfoCache α)
    (lenv : LeaseEnv) (denv : DomainEnv) (vm_name : String) (force : Bool) :
    Except String OpResult × PoolState × VMInfoCache α × Nat :=
  runMgmt pool cache lenv (stopVMBody denv vm_name force)

/-- reboot_vm (management.py lines 94-108) composed with the pool and the
cache. -/
def rebootVM {α : Type} (pool : PoolState) (cache : VMInfoCache α)
    (lenv : LeaseEnv) (denv : DomainEnv) (vm_name : String) :
    Except String OpResult × PoolState × VMInfoCache α × Nat :=
  runMgmt pool cache lenv (rebootVMBody denv vm_name)

/-- One domain as returned by `conn.listAllDomains()` in list_vms:
`failing` records whether the per-domain accessor calls raise a
libvirtError (in which case the domain is logged and skipped), otherwise
the raw state code and the name/ID/autostart/persistent attributes. -/
structure DomainEntry where
  failing : Bool
  stateCode : Int
  name : String
  domId : Int
  autostart : Bool
  persistent : Bool
deriving DecidableEq

/-- One entry of the reply of list_vms (management.py lines 40-46). -/
structure VmInfo where
  name : String
  domId : Int
  state : String
  autostart : Bool
  persistent : Bool
deriving DecidableEq

/-- The inventory snapshot cached under the sentinel key "_all_vms_". -/
abbrev Snapshot := List VmInfo

/-- The raw-state-code mapping of list_vms (management.py lines 29-38) with
libvirt's numeric constants: VIR_DOMAIN_NOSTATE=0, RUNNING=1, BLOCKED=2,
PAUSED=3, SHUTDOWN=4, SHUTOFF=5, CRASHED=6, PMSUSPENDED=7; any other code
maps to "unknown". -/
def stateStr (code : Int) : String :=
  if code = 0 then "no state"
  else if code = 1 then "running"
  else if code = 2 then "blocked"
  else if code = 3 then "paused"
  else if code = 4 then "shutdown"
  else if code = 5 then "shutoff"
  else if code = 6 then "crashed"
  else if code = 7 then "suspended"
  else "unknown"

/-- The enumeration loop of list_vms (management.py lines 24-49): each
domain whose accessors raise is skipped, the rest are mapped in order. -/
def enumerate (ds : List DomainEntry) : Snapshot :=
  (ds.filter (fun d => !d.failing)).map
    (fun d => ⟨d.name, d.domId, stateStr d.stateCode, d.autostart,
      d.persistent⟩)

/-- list_vms (management.py lines 14-53) over the cache state.  `ds` is the
inventory behind `conn.listAllDomains()` (the pooled connection's lease is
modelled by `withConnection` and is orthogonal to the cache behaviour
stated here).  Returns the reply, the new cache state and whether the
hypervisor enumeration ran.  The guard on the cached value is Python
truthiness (`if cached_list:`), so a cached empty list falls through to a
fresh enumeration.  The `none` result models the ValueError `set` raises
when `max_size = 0` (the deployed cache uses `max_size = 50`). -/
def listVms (cache : VMInfoCache Snapshot) (now : Int) (use_cache : Bool)
    (ds : List DomainEntry) :
    Option (Snapshot × VMInfoCache Snapshot × Bool) :=
  let got := if use_cache then cache.get now "_all_vms_" else (none, cache)
  let doFetch : VMInfoCache Snapshot →
      Option (Snapshot × VMInfoCache Snapshot × Bool) := fun c1 =>
    let result := enumerate ds
    if use_cache then
      (c1.set now "_all_vms_" result).map (fun c2 => (result, c2, true))
    else some (result, c1, true)
  match got.1 with
  | some l => if l.isEmpty then doFetch got.2 else some (l, got.2, false)
  | none => doFetch got.2

/-- The reply dict of create_vm (creation.py): a status string ("success"
or "error") and a message. -/
structure CreateResult where
  status : String
  message : String
deriving DecidableEq

/-- The `arguments` dict of create_vm (creation.py lines 16-23).  `none`
models a missing key or a value of the wrong type (`isinstance` checks);
string truthiness is checked against "". -/
structure CreateArgs where
  name : Option String
  memory : Option Int
  vcpus : Option Int
  disk_size : Int := 20
  network : String := "brforvms"
  master_image : Option String
  ignitionProvided : Bool
deriving DecidableEq

/-- Outcomes of the external calls of create_vm (creation.py):
`os.path.exists(master_image)`, `os.path.exists(disk_path)`, the `qemu-img
create` subprocess, `generate_ignition_config` (which may raise), and the
`virt-install` subprocess. -/
structure CreateEnv where
  masterImageExists : Bool
  diskPathExists : Bool
  qemuImgOk : Bool
  ignitionGenOk : Bool
  virtInstallOk : Bool
deriving DecidableEq

/-- The characters rejected in a VM name by creation.py line 28. -/
def invalidChars : List Char :=
  ['!', '@', '#', '$', '%', '^', '&', '*', '(', ')', '+', '=',
    Char.ofNat 123, Char.ofNat 125, '[', ']', '|', Char.ofNat 92, ':', ';',
    Char.ofNat 34, Char.ofNat 39, '<', '>', '?', '/']

/-- create_vm (creation.py lines 12-110): parameter validation, the
`qemu-img create` call, the ignition-config generation and the
`virt-install` call, in source order.  The second component is the list of
keys create_vm passes to `vm_info_cache.invalidate`: creation.py never
imports the cache (or the connection pool) and performs no invalidation on
any path, so this list is always empty — returned explicitly so that the
cache effect of a create_vm call can be stated and compared with the other
mutating operations. -/
def createVM (args : CreateArgs) (env : CreateEnv) :
    CreateResult × List String :=
  match args.name with
  | none => (⟨"error", "Invalid VM name"⟩, [])
  | some nm =>
      if nm = "" then (⟨"error", "Invalid VM name"⟩, [])
      else if nm.data.any (fun ch => invalidChars.contains ch) then
        (⟨"error", "VM name contains invalid characters"⟩, [])
      else
        match args.memory with
        | none => (⟨"error", "Memory must be at least 256MB"⟩, [])
        | some mem =>
            if mem < 256 then (⟨"error", "Memory must be at least 256MB"⟩, [])
            else if 1024 * 1024 < mem then
              (⟨"error", "Memory exceeds maximum limit of 1TB"⟩, [])
            else
              match args.vcpus with
              | none => (⟨"error", "Must have at least 1 vCPU"⟩, [])
              | some vc =>
                  if vc < 1 then (⟨"error", "Must have at least 1 vCPU"⟩, [])
                  else if 128 < vc then
                    (⟨"error", "vCPUs exceed maximum limit of 128"⟩, [])
                  else if args.disk_size < 1 then
                    (⟨"error", "Disk size must be at least 1GB"⟩, [])
                  else if 10000 < args.disk_size then
                    (⟨"error", "Disk size exceeds maximum limit of 10TB"⟩, [])
                  else if args.network = "" then
                    (⟨"error", "Invalid network name"⟩, [])
                  else
                    match args.master_image with
                    | none => (⟨"error", "master image does not exist"⟩, [])
                    | some mi =>
                        if mi = "" ∨ ¬ env.masterImageExists then
                          (⟨"error", "master image does not exist"⟩, [])
                        else if env.diskPathExists then
                          (⟨"error", "disk image already exists"⟩, [])
                        else if ¬ env.qemuImgOk then
                          (⟨"error", "Failed to create disk image"⟩, [])
                        else if ¬ env.ignitionGenOk then
                          (⟨"error", "Error during VM creation"⟩, [])
                        else if ¬ env.virtInstallOk then
                          (⟨"error", "virt-install failed"⟩, [])
                        else
                          (⟨"success",
                            "VM " ++ nm ++
                              " created successfully using virt-install"⟩,
                            [])

/-- Two entries of a duplicate-free entry list with the same key are equal. -/
theorem key_inj {α : Type} {es : List (Entry α)}
    (h : (es.map Entry.key).Nodup) {e e' : Entry α}
    (he : e ∈ es) (he' : e' ∈ es) (hk : e.key = e'.key) : e = e' := by
  induction es with
  | nil => cases he
  | cons a as ih =>
      rw [List.map_cons, List.nodup_cons] at h
      rcases List.mem_cons.mp he with rfl | he₂
      · rcases List.mem_cons.mp he' with rfl | he₂'
        · rfl
        · exact absurd (hk ▸ List.mem_map_of_mem Entry.key he₂') h.1
      · rcases List.mem_cons.mp he' with rfl | he₂'
        · exact absurd (hk ▸ List.mem_map_of_mem Entry.key he₂) h.1
        · exact ih h.2 he₂ he₂'

/-- C6: for every key and every well-formed cache state, `get` returns the
stored value iff an entry for the key is present and
`now - insertion_time < ttl`; a hit leaves the cache completely unchanged
(no timestamp refresh); when the entry is present but expired, `get`
removes it from the cache and reports a miss. -/
theorem c6_get_contract {α : Type} (c : VMInfoCache α) (now : Int) (k : String)
    (hwf : c.WF) :
    (∀ v, (c.get now k).1 = some v ↔
        ∃ e ∈ c.entries, e.key = k ∧ e.val = v ∧ now - e.ts < c.ttl)
    ∧ ((c.get now k).1.isSome → (c.get now k).2 = c)
    ∧ (∀ e ∈ c.entries, e.key = k → ¬ now - e.ts < c.ttl →
        (c.get now k).1 = none ∧
        (c.get now k).2.entries = c.entries.filter (fun x => x.key != k)) := by
  rcases hfind : c.entries.find? (fun e => e.key == k) with _ | e
  · have hnone : ∀ x ∈ c.entries, x.key ≠ k := fun x hx => by
      simpa using List.find?_eq_none.mp hfind x hx
    have hget : c.get now k = (none, c) := by
      simp [VMInfoCache.get, hfind]
    refine ⟨fun v => ?_, fun h => by simp [hget], fun e he hk _ => ?_⟩
    · rw [hget]
      simp only [false_iff, reduceCtorEq]
      rintro ⟨e, he, hk, -, -⟩
      exact hnone e he hk
    · exact absurd hk (hnone e he)
  · have hkey : e.key = k := by
      have := List.find?_some hfind
      simpa using this
    have hmem : e ∈ c.entries := List.mem_of_find?_eq_some hfind
    by_cases hts : now - e.ts < c.ttl
    · have hget : c.get now k = (some e.val, c) := by
        simp [VMInfoCache.get, hfind, hts]
      refine ⟨fun v => ?_, fun _ => by simp [hget], fun e' he' hk' hts' => ?_⟩
      · rw [hget]
        constructor
        · rintro h
          exact ⟨e, hmem, hkey, Option.some_injective α h, hts⟩
        · rintro ⟨e', he', hk', hv', hts'⟩
          have : e' = e := key_inj hwf he' hmem (hk'.trans hkey.symm)
          subst this
          rw [hv']
      · have : e' = e := key_inj hwf he' hmem (hk'.trans hkey.symm)
        subst this
        exact absurd hts hts'
    · have hget : c.get now k =
          (none, { c with entries := c.entries.filter (fun e => e.key != k) }) := by
        simp [VMInfoCache.get, hfind, hts]
      refine ⟨fun v => ?_, fun h => by simp [hget] at h, fun e' he' hk' hts' => ?_⟩
      · rw [hget]
        simp only [false_iff, reduceCtorEq]
        rintro ⟨e', he', hk', -, hts'⟩
        have : e' = e := key_inj hwf he' hmem (hk'.trans hkey.symm)
        subst this
        exact hts hts'
      · rw [hget]
        exact ⟨rfl, rfl⟩

/-- Witness for C6 at a concrete cache state: a one-entry cache holding the
value 3 under key "a" inserted at time 0, queried at time 1 with ttl 60. -/
theorem c6_get_contract_witness :
    (∀ v, ((⟨50, 60, [⟨"a", 3, 0⟩]⟩ : VMInfoCache Nat).get 1 "a").1 = some v ↔
        ∃ e ∈ (⟨50, 60, [⟨"a", 3, 0⟩]⟩ : VMInfoCache Nat).entries,
          e.key = "a" ∧ e.val = v ∧ 1 - e.ts < 60)
    ∧ (((⟨50, 60, [⟨"a", 3, 0⟩]⟩ : VMInfoCache Nat).get 1 "a").1.isSome →
        ((⟨50, 60, [⟨"a", 3, 0⟩]⟩ : VMInfoCache Nat).get 1 "a").2 =
          ⟨50, 60, [⟨"a", 3, 0⟩]⟩)
    ∧ (∀ e ∈ (⟨50, 60, [⟨"a", 3, 0⟩]⟩ : VMInfoCache Nat).entries,
        e.key = "a" → ¬ 1 - e.ts < 60 →
        ((⟨50, 60, [⟨"a", 3, 0⟩]⟩ : VMInfoCache Nat).get 1 "a").1 = none ∧
        ((⟨50, 60, [⟨"a", 3, 0⟩]⟩ : VMInfoCache Nat).get 1 "a").2.entries =
          (⟨50, 60, [⟨"a", 3, 0⟩]⟩ : VMInfoCache Nat).entries.filter
            (fun x => x.key != "a")) :=
  c6_get_contract (⟨50, 60, [⟨"a", 3, 0⟩]⟩ : VMInfoCache Nat) 1 "a"
    (by unfold VMInfoCache.WF; decide)

/-- After an `upsert` the written key maps to the new value stamped `now`. -/
theorem upsert_find {α : Type} (es : List (Entry α)) (k : String) (v : α)
    (now : Int) :
    (upsert es k v now).find? (fun e => e.key == k) = some ⟨k, v, now⟩ := by
  induction es with
  | nil => simp [upsert]
  | cons e rest ih =>
      by_cases h : e.key = k
      · simp [upsert, h]
      · simp [upsert, h, ih]

/-- An `upsert` never removes an entry whose key differs from the written
key. -/
theorem upsert_mem_of_ne {α : Type} {es : List (Entry α)} {e : Entry α}
    (he : e ∈ es) {k : String} (hk : e.key ≠ k) (v : α) (now : Int) :
    e ∈ upsert es k v now := by
  induction es with
  | nil => cases he
  | cons a rest ih =>
      rcases List.mem_cons.mp he with rfl | hrest
      · simp [upsert, hk]
      · by_cases h : a.key = k
        · simp [upsert, h, hrest]
        · simp only [upsert, h]
          simp only [beq_iff_eq, h, if_neg, ite_false]
          exact List.mem_cons_of_mem a (ih hrest)

/-- The fold inside `oldestKey` returns either its seed or a list element,
and its timestamp is a lower bound for the seed and all elements. -/
theorem foldl_min_spec {α : Type} (es : List (Entry α)) (e : Entry α) :
    (es.foldl (fun best x => if x.ts < best.ts then x else best) e = e ∨
      es.foldl (fun best x => if x.ts < best.ts then x else best) e ∈ es)
    ∧ (es.foldl (fun best x => if x.ts < best.ts then x else best) e).ts ≤ e.ts
    ∧ ∀ x ∈ es,
        (es.foldl (fun best x => if x.ts < best.ts then x else best) e).ts ≤ x.ts := by
  induction es generalizing e with
  | nil => exact ⟨Or.inl rfl, le_refl _, by simp⟩
  | cons a rest ih =>
      simp only [List.foldl_cons]
      by_cases h : a.ts < e.ts
      · rcases ih a with ⟨hmem, hts, hall⟩
        rw [if_pos h] at *
        refine ⟨?_, le_trans hts (le_of_lt h), ?_⟩
        · rcases hmem with h' | h'
          · exact Or.inr (by rw [h']; exact List.mem_cons_self a rest)
          · exact Or.inr (List.mem_cons_of_mem a h')
        · intro x hx
          rcases List.mem_cons.mp hx with rfl | hx'
          · exact hts
          · exact hall x hx'
      · rcases ih e with ⟨hmem, hts, hall⟩
        rw [if_neg h] at *
        refine ⟨?_, hts, ?_⟩
        · rcases hmem with h' | h'
          · exact Or.inl h'
          · exact Or.inr (List.mem_cons_of_mem a h')
        · intro x hx
          rcases List.mem_cons.mp hx with rfl | hx'
          · exact le_trans hts (le_of_not_lt h)
          · exact hall x hx'

/-- The key returned by `oldestKey` belongs to an entry whose timestamp is
minimal over the whole list (Python `min` by timestamp). -/
theorem oldestKey_spec {α : Type} {es : List (Entry α)} {old : String}
    (h : oldestKey es = some old) :
    ∃ e ∈ es, e.key = old ∧ ∀ x ∈ es, e.ts ≤ x.ts := by
  cases es with
  | nil => simp [oldestKey] at h
  | cons a rest =>
      rcases foldl_min_spec rest a with ⟨hmem, hts, hall⟩
      simp only [oldestKey, Option.some_injective, Option.some.injEq] at h
      refine ⟨rest.foldl (fun best x => if x.ts < best.ts then x else best) a,
        ?_, h, ?_⟩
      · rcases hmem with h' | h'
        · rw [h']; exact List.mem_cons_self a rest
        · exact List.mem_cons_of_mem a h'
      · intro x hx
        rcases List.mem_cons.mp hx with rfl | hx'
        · exact hts
        · exact hall x hx'

/-- Every entry of an `upsert` result is either an original entry or the
newly written one. -/
theorem upsert_mem_split {α : Type} {es : List (Entry α)} {e : Entry α}
    {k : String} {v : α} {now : Int} (h : e ∈ upsert es k v now) :
    e ∈ es ∨ e = ⟨k, v, now⟩ := by
  induction es with
  | nil =>
      simp only [upsert, List.mem_singleton] at h
      exact Or.inr h
  | cons a rest ih =>
      by_cases hak : a.key = k
      · simp only [upsert, hak, beq_self_eq_true, if_true] at h
        rcases List.mem_cons.mp h with rfl | h'
        · exact Or.inr rfl
        · exact Or.inl (List.mem_cons_of_mem a h')
      · simp only [upsert, beq_iff_eq, hak, ite_false] at h
        rcases List.mem_cons.mp h with rfl | h'
        · exact Or.inl (List.mem_cons_self _ _)
        · rcases ih h' with h'' | h''
          · exact Or.inl (List.mem_cons_of_mem a h'')
          · exact Or.inr h''

/-- C3 counterexample: with `max_size = 2`, `ttl = 100` and entries
"a" (inserted at 0) and "b" (inserted at 1), overwriting the already-present
key "b" at time 2 evicts "a": the code's eviction branch fires on
`len(cache) >= max_size` without checking whether the key is already
present, so the final cache holds only "b" — the claim says no other entry
may be evicted when the key is present. -/
theorem c3_counterexample :
    (⟨2, 100, [⟨"a", 1, 0⟩, ⟨"b", 2, 1⟩]⟩ : VMInfoCache Nat).set 2 "b" 5 =
      some ⟨2, 100, [⟨"b", 5, 2⟩]⟩ := by
  decide

/-- C3 (amended): `set` evicts the entry with the smallest insertion
timestamp whenever the entry count has reached `max_size`, even when the key
being written is already present; below capacity nothing is evicted and an
existing key is replaced in place; the newly written entry is always stamped
with the current time. -/
theorem c3_set_contract {α : Type} (c : VMInfoCache α) (now : Int) (k : String)
    (v : α) (hwf : c.WF) :
    (c.entries.length < c.max_size →
      ∃ c', c.set now k v = some c' ∧
        (∀ e ∈ c.entries, e.key ≠ k → e ∈ c'.entries) ∧
        c'.entries.find? (fun e => e.key == k) = some ⟨k, v, now⟩)
    ∧ (c.max_size ≤ c.entries.length → c.entries ≠ [] →
      ∃ c' eMin, c.set now k v = some c' ∧ eMin ∈ c.entries ∧
        (∀ x ∈ c.entries, eMin.ts ≤ x.ts) ∧
        (eMin.key ≠ k → ∀ e ∈ c'.entries, e.key ≠ eMin.key) ∧
        (∀ e ∈ c.entries, e.key ≠ eMin.key → e.key ≠ k → e ∈ c'.entries) ∧
        c'.entries.find? (fun e => e.key == k) = some ⟨k, v, now⟩) := by
  constructor
  · intro hlen
    have hlt : ¬ c.max_size ≤ c.entries.length := not_le.mpr hlen
    refine ⟨{ c with entries := upsert c.entries k v now }, ?_, ?_, ?_⟩
    · simp [VMInfoCache.set, hlt]
    · intro e he hk
      exact upsert_mem_of_ne he hk v now
    · exact upsert_find c.entries k v now
  · intro hlen hne
    have hok : ∃ old, oldestKey c.entries = some old := by
      cases hE : c.entries with
      | nil => exact absurd hE hne
      | cons a rest => exact ⟨_, rfl⟩
    rcases hok with ⟨old, hold⟩
    rcases oldestKey_spec hold with ⟨eMin, hmemMin, hkeyMin, hminAll⟩
    refine ⟨{ c with
        entries := upsert (c.entries.filter (fun e => e.key != old)) k v now },
      eMin, ?_, hmemMin, hminAll, ?_, ?_, ?_⟩
    · simp [VMInfoCache.set, hlen, hold]
    · intro hkne e he
      rcases upsert_mem_split he with h' | h'
      · have := List.of_mem_filter h'
        rw [← hkeyMin] at this
        simpa using this
      · subst h'
        exact fun hcontra => hkne hcontra.symm
    · intro e he hkmin hkk
      have hfilter : e ∈ c.entries.filter (fun x => x.key != old) := by
        refine List.mem_filter.mpr ⟨he, ?_⟩
        simp [hkeyMin ▸ hkmin]
      exact upsert_mem_of_ne hfilter hkk v now
    · exact upsert_find _ k v now

/-- Witness for C3 (amended) at a concrete input: a well-formed one-entry
cache with capacity 2. -/
theorem c3_set_contract_witness :
    ((⟨2, 100, [⟨"a", 1, 0⟩]⟩ : VMInfoCache Nat).entries.length < 2 →
      ∃ c', (⟨2, 100, [⟨"a", 1, 0⟩]⟩ : VMInfoCache Nat).set 5 "b" 7 = some c' ∧
        (∀ e ∈ (⟨2, 100, [⟨"a", 1, 0⟩]⟩ : VMInfoCache Nat).entries,
          e.key ≠ "b" → e ∈ c'.entries) ∧
        c'.entries.find? (fun e => e.key == "b") = some ⟨"b", 7, 5⟩)
    ∧ (2 ≤ (⟨2, 100, [⟨"a", 1, 0⟩]⟩ : VMInfoCache Nat).entries.length →
      (⟨2, 100, [⟨"a", 1, 0⟩]⟩ : VMInfoCache Nat).entries ≠ [] →
      ∃ c' eMin,
        (⟨2, 100, [⟨"a", 1, 0⟩]⟩ : VMInfoCache Nat).set 5 "b" 7 = some c' ∧
        eMin ∈ (⟨2, 100, [⟨"a", 1, 0⟩]⟩ : VMInfoCache Nat).entries ∧
        (∀ x ∈ (⟨2, 100, [⟨"a", 1, 0⟩]⟩ : VMInfoCache Nat).entries,
          eMin.ts ≤ x.ts) ∧
        (eMin.key ≠ "b" → ∀ e ∈ c'.entries, e.key ≠ eMin.key) ∧
        (∀ e ∈ (⟨2, 100, [⟨"a", 1, 0⟩]⟩ : VMInfoCache Nat).entries,
          e.key ≠ eMin.key → e.key ≠ "b" → e ∈ c'.entries) ∧
        c'.entries.find? (fun e => e.key == "b") = some ⟨"b", 7, 5⟩) :=
  c3_set_contract (⟨2, 100, [⟨"a", 1, 0⟩]⟩ : VMInfoCache Nat) 5 "b" 7
    (by unfold VMInfoCache.WF; decide)

/-- C7: eviction priority is by insertion timestamp only, never by access:
a `get` never alters any surviving entry (in particular no timestamp is
refreshed — every entry present after a `get` is an unchanged entry of the
prior state), and in the claim's concrete scenario (`max_size = 2`, insert
"a", "b", then "c", with "b" `get`-accessed between the inserts) exactly the
key with the smallest insertion timestamp, "a", is evicted. -/
theorem c7_eviction_by_insertion_time :
    (∀ (α : Type) (c : VMInfoCache α) (now : Int) (k : String),
        ∀ e ∈ (c.get now k).2.entries, e ∈ c.entries)
    ∧ ((⟨2, 100, []⟩ : VMInfoCache Nat).set 0 "a" 1 =
          some ⟨2, 100, [⟨"a", 1, 0⟩]⟩
      ∧ (⟨2, 100, [⟨"a", 1, 0⟩]⟩ : VMInfoCache Nat).set 1 "b" 2 =
          some ⟨2, 100, [⟨"a", 1, 0⟩, ⟨"b", 2, 1⟩]⟩
      ∧ (⟨2, 100, [⟨"a", 1, 0⟩, ⟨"b", 2, 1⟩]⟩ : VMInfoCache Nat).get 2 "b" =
          (some 2, ⟨2, 100, [⟨"a", 1, 0⟩, ⟨"b", 2, 1⟩]⟩)
      ∧ (⟨2, 100, [⟨"a", 1, 0⟩, ⟨"b", 2, 1⟩]⟩ : VMInfoCache Nat).set 3 "c" 3 =
          some ⟨2, 100, [⟨"b", 2, 1⟩, ⟨"c", 3, 3⟩]⟩
      ∧ ((⟨2, 100, [⟨"b", 2, 1⟩, ⟨"c", 3, 3⟩]⟩ : VMInfoCache Nat).get 4 "a").1 =
          none) := by
  constructor
  · intro α c now k e he
    have hsplit : (c.get now k).2.entries = c.entries ∨
        (c.get now k).2.entries = c.entries.filter (fun e => e.key != k) := by
      cases hfind : c.entries.find? (fun e => e.key == k) with
      | none => simp [VMInfoCache.get, hfind]
      | some e' =>
          by_cases hts : now - e'.ts < c.ttl
          · simp [VMInfoCache.get, hfind, hts]
          · simp [VMInfoCache.get, hfind, hts]
    rcases hsplit with h | h
    · rw [h] at he
      exact he
    · rw [h] at he
      exact List.mem_of_mem_filter he
  · exact ⟨by decide, by decide, by decide, by decide, by decide⟩

/-- Witness for C7: the frame part applied at a concrete state — a `get` of
key "b" on a two-entry cache keeps the entry for "a" untouched. -/
theorem c7_eviction_by_insertion_time_witness :
    (⟨"a", 1, 0⟩ : Entry Nat) ∈
      ((⟨2, 100, [⟨"a", 1, 0⟩, ⟨"b", 2, 1⟩]⟩ : VMInfoCache Nat).get 2
        "b").2.entries ∧
    (⟨"a", 1, 0⟩ : Entry Nat) ∈
      (⟨2, 100, [⟨"a", 1, 0⟩, ⟨"b", 2, 1⟩]⟩ : VMInfoCache Nat).entries :=
  ⟨by decide,
   c7_eviction_by_insertion_time.1 Nat
     (⟨2, 100, [⟨"a", 1, 0⟩, ⟨"b", 2, 1⟩]⟩ : VMInfoCache Nat) 2 "b"
     (⟨"a", 1, 0⟩ : Entry Nat) (by decide)⟩

/-- C8 counterexample: with `max_size = 0` — allowed by the claim, which
quantifies over every `max_size ≥ 0` — a `set` on the empty cache hits the
eviction branch (`len(cache) >= max_size` holds as `0 >= 0`) and Python's
`min` over the empty `timestamps` dict raises ValueError, modelled by
`none`. -/
theorem c8_counterexample :
    (⟨0, 60, []⟩ : VMInfoCache Nat).set 0 "x" 1 = none := by
  decide

/-- C8 (amended): for every configuration with `max_size ≥ 1`, every cache
state and every input, no cache operation raises: `set` always succeeds
(`get` and `invalidate` are total by construction — they return plain
values, not fallible ones). -/
theorem c8_total {α : Type} (c : VMInfoCache α) (now : Int) (k : String)
    (v : α) (hmax : 1 ≤ c.max_size) :
    (c.set now k v).isSome := by
  unfold VMInfoCache.set
  by_cases h : c.max_size ≤ c.entries.length
  · cases hE : c.entries with
    | nil =>
        rw [hE] at h
        simp only [List.length_nil, Nat.le_zero] at h
        omega
    | cons a rest =>
        simp only [h, hE, oldestKey, if_pos]
        split <;> simp
  · simp [h]

/-- Witness for C8 (amended): `set` succeeds on a concrete cache with
`max_size = 1` that is at capacity. -/
theorem c8_total_witness :
    1 ≤ (⟨1, 60, [⟨"a", 2, 0⟩]⟩ : VMInfoCache Nat).max_size ∧
    ((⟨1, 60, [⟨"a", 2, 0⟩]⟩ : VMInfoCache Nat).set 5 "x" 1).isSome :=
  ⟨by decide, c8_total (⟨1, 60, [⟨"a", 2, 0⟩]⟩ : VMInfoCache Nat) 5 "x" 1
    (by decide)⟩

/-- After `invalidate` with a key, no entry for that key remains: a truthy
key is filtered out, the falsy key "" clears everything. -/
theorem invalidate_no_key {α : Type} (c : VMInfoCache α) (s : String) :
    ∀ e ∈ (c.invalidate (some s)).entries, e.key ≠ s := by
  intro e he
  by_cases h : s = ""
  · subst h
    simp [VMInfoCache.invalidate] at he
  · simp only [VMInfoCache.invalidate, beq_iff_eq, h, ite_false] at he
    have := List.of_mem_filter he
    simpa using this

/-- `invalidate` only ever removes entries. -/
theorem invalidate_subset {α : Type} (c : VMInfoCache α) (o : Option String) :
    ∀ e ∈ (c.invalidate o).entries, e ∈ c.entries := by
  intro e he
  cases o with
  | none => simp [VMInfoCache.invalidate] at he
  | some s =>
      by_cases h : s = ""
      · subst h
        simp [VMInfoCache.invalidate] at he
      · simp only [VMInfoCache.invalidate, beq_iff_eq, h, ite_false] at he
        exact List.mem_of_mem_filter he

/-- A key with no entry always yields a miss. -/
theorem get_none_of_no_key {α : Type} (c : VMInfoCache α) (now : Int)
    (k : String) (h : ∀ e ∈ c.entries, e.key ≠ k) : (c.get now k).1 = none := by
  have hfind : c.entries.find? (fun e => e.key == k) = none :=
    List.find?_eq_none.mpr (by intro e he; simpa using h e he)
  simp [VMInfoCache.get, hfind]

/-- Invalidating the per-VM key and then the sentinel key makes both keys
miss on any subsequent `get`. -/
theorem invalidate_two_get {α : Type} (c : VMInfoCache α) (nm : String)
    (t : Int) :
    (((c.invalidate (some nm)).invalidate (some "_all_vms_")).get t nm).1 =
      none ∧
    (((c.invalidate (some nm)).invalidate
        (some "_all_vms_")).get t "_all_vms_").1 = none := by
  constructor
  · apply get_none_of_no_key
    intro e he
    exact invalidate_no_key _ nm e (invalidate_subset _ _ e he)
  · apply get_none_of_no_key
    intro e he
    exact invalidate_no_key _ "_all_vms_" e he

/-- C4: a checkout that exhausts the wait (empty queue in the single-worker
model, so `checkout_timeout` elapses) is not rejected: a brand-new handle is
opened against the uri and yielded; the acquire fails exactly when the
fallback open itself fails; and such a connection-error is distinguishable
from a hypervisor-domain error — it propagates out of `start_vm` as a raised
exception (`Except.error`), whereas a domain error (here: `lookupByName`
raising) is caught and returned as a `success: False` reply. -/
theorem c4_timeout_fallback (s : PoolState) (fo : OpenResult) :
    (∀ c, s.queue = [] → fo = OpenResult.ok c →
      (acquire s fo).1 = AcquireResult.fresh c)
    ∧ ((∃ m, (acquire s fo).1 = AcquireResult.failed m) ↔
        (s.queue = [] ∧ ∀ c, fo ≠ OpenResult.ok c))
    ∧ (∀ (cache : VMInfoCache Snapshot) (renv : ReleaseEnv) (denv : DomainEnv)
        (nm m : String),
        (acquire s fo).1 = AcquireResult.failed m →
        (startVM s cache ⟨fo, renv⟩ denv nm).1 = Except.error m)
    ∧ (∀ (cache : VMInfoCache Snapshot) (renv : ReleaseEnv) (nm m : String),
        (∀ m', (acquire s fo).1 ≠ AcquireResult.failed m') →
        (startVM s cache ⟨fo, renv⟩
            ⟨Except.error m, Except.ok false, Except.ok ()⟩ nm).1 =
          Except.ok ⟨false, "Failed to start VM: " ++ m⟩) := by
  cases hq : s.queue with
  | cons a rest =>
      refine ⟨?_, ?_, ?_, ?_⟩
      · intro c hq' _
        simp at hq'
      · constructor
        · rintro ⟨m, hm⟩
          simp [acquire, hq] at hm
        · rintro ⟨hq', -⟩
          simp at hq'
      · intro cache renv denv nm m hm
        simp [acquire, hq] at hm
      · intro cache renv nm m _
        simp [startVM, runMgmt, acquire, hq, startVMBody]
  | nil =>
      cases fo with
      | ok c =>
          refine ⟨?_, ?_, ?_, ?_⟩
          · intro c' _ hfo
            cases hfo
            simp [acquire, hq]
          · constructor
            · rintro ⟨m, hm⟩
              simp [acquire, hq] at hm
            · rintro ⟨-, hfo⟩
              exact absurd rfl (hfo c)
          · intro cache renv denv nm m hm
            simp [acquire, hq] at hm
          · intro cache renv nm m _
            simp [startVM, runMgmt, acquire, hq, startVMBody]
      | nullConn =>
          refine ⟨?_, ?_, ?_, ?_⟩
          · intro c' _ hfo
            cases hfo
          · constructor
            · rintro ⟨m, -⟩
              exact ⟨rfl, by rintro c hfo; cases hfo⟩
            · rintro ⟨-, -⟩
              exact ⟨"Failed to connect to libvirt daemon",
                by simp [acquire, hq]⟩
          · intro cache renv denv nm m hm
            simp only [acquire, hq, AcquireResult.failed.injEq] at hm
            subst hm
            simp [startVM, runMgmt, acquire, hq]
          · intro cache renv nm m hacq
            exact absurd (show (acquire s OpenResult.nullConn).1 =
                AcquireResult.failed "Failed to connect to libvirt daemon" by
                  simp [acquire, hq])
              (hacq "Failed to connect to libvirt daemon")
      | err m₀ =>
          refine ⟨?_, ?_, ?_, ?_⟩
          · intro c' _ hfo
            cases hfo
          · constructor
            · rintro ⟨m, -⟩
              exact ⟨rfl, by rintro c hfo; cases hfo⟩
            · rintro ⟨-, -⟩
              exact ⟨m₀, by simp [acquire, hq]⟩
          · intro cache renv denv nm m hm
            simp only [acquire, hq, AcquireResult.failed.injEq] at hm
            subst hm
            simp [startVM, runMgmt, acquire, hq]
          · intro cache renv nm m hacq
            exact absurd (show (acquire s (OpenResult.err m₀)).1 =
                AcquireResult.failed m₀ by simp [acquire, hq]) (hacq m₀)

/-- Witness for C4 at a concrete pool: empty queue, fallback open succeeds
with handle 7. -/
theorem c4_timeout_fallback_witness :
    (∀ c, ([] : List Conn) = [] → OpenResult.ok (⟨7⟩ : Conn) = OpenResult.ok c →
      (acquire ⟨[], 0⟩ (OpenResult.ok ⟨7⟩)).1 = AcquireResult.fresh c)
    ∧ ((∃ m, (acquire ⟨[], 0⟩ (OpenResult.ok ⟨7⟩)).1 = AcquireResult.failed m) ↔
        (([] : List Conn) = [] ∧ ∀ c, OpenResult.ok (⟨7⟩ : Conn) ≠ OpenResult.ok c))
    ∧ (∀ (cache : VMInfoCache Snapshot) (renv : ReleaseEnv) (denv : DomainEnv)
        (nm m : String),
        (acquire ⟨[], 0⟩ (OpenResult.ok ⟨7⟩)).1 = AcquireResult.failed m →
        (startVM ⟨[], 0⟩ cache ⟨OpenResult.ok ⟨7⟩, renv⟩ denv nm).1 =
          Except.error m)
    ∧ (∀ (cache : VMInfoCache Snapshot) (renv : ReleaseEnv) (nm m : String),
        (∀ m', (acquire ⟨[], 0⟩ (OpenResult.ok ⟨7⟩)).1 ≠ AcquireResult.failed m') →
        (startVM ⟨[], 0⟩ cache ⟨OpenResult.ok ⟨7⟩, renv⟩
            ⟨Except.error m, Except.ok false, Except.ok ()⟩ nm).1 =
          Except.ok ⟨false, "Failed to start VM: " ++ m⟩) :=
  c4_timeout_fallback ⟨[], 0⟩ (OpenResult.ok ⟨7⟩)

/-- C5 counterexample: release of a dead handle whose `conn.close()` itself
raises.  The bare `try: conn.close(); self.active_connections -= 1
except: pass` skips the decrement when close raises, so with a successful
replacement the counter rises from 3 to 4 — a net +1, not the net-zero
change the claim asserts, and the handle was not closed. -/
theorem c5_counterexample :
    release ⟨[], 3⟩ ⟨0⟩ ⟨false, false, OpenResult.ok ⟨1⟩⟩ = ⟨[⟨1⟩], 4⟩ := by
  decide

/-- C5 (amended): for a release whose liveness probe fails and whose close
succeeds, `active_connections` drops by one and exactly one replacement
open is attempted: a truthy replacement is enqueued and restores the
counter (net zero); otherwise the net change is -1 and the queue is
unchanged.  No exception escapes (release is total by construction), and
the identical release runs on the normal and on the exceptional exit of
the leased scope.  When the close itself raises, the decrement is skipped
(see the counterexample). -/
theorem c5_dead_release (s : PoolState) (c : Conn) (env : ReleaseEnv)
    (hdead : env.alive = false) (hclose : env.closeOk = true) :
    ((∃ nc, env.replacement = OpenResult.ok nc ∧
        release s c env = ⟨s.queue ++ [nc], s.active⟩) ∨
      ((∀ nc, env.replacement ≠ OpenResult.ok nc) ∧
        release s c env = ⟨s.queue, s.active - 1⟩))
    ∧ (∀ (lenv : LeaseEnv) (r : Nat) (m : String),
        (withConnection s lenv (fun _ => Except.ok r)).2 =
          (withConnection s lenv (fun _ => (Except.error m : Except String Nat))).2) := by
  constructor
  · cases hrep : env.replacement with
    | ok nc =>
        refine Or.inl ⟨nc, rfl, ?_⟩
        simp [release, hdead, hclose, hrep]
    | nullConn =>
        refine Or.inr ⟨fun nc h => absurd h (by simp [hrep]), ?_⟩
        simp [release, hdead, hclose, hrep]
    | err m =>
        refine Or.inr ⟨fun nc h => absurd h (by simp [hrep]), ?_⟩
        simp [release, hdead, hclose, hrep]
  · intro lenv r m
    unfold withConnection
    rcases acquire s lenv.fallbackOpen with ⟨ar, s1⟩
    cases ar <;> rfl

/-- Witness for C5 (amended) at a concrete dead release whose close
succeeds and whose replacement open succeeds. -/
theorem c5_dead_release_witness :
    ((∃ nc, (⟨false, true, OpenResult.ok ⟨2⟩⟩ : ReleaseEnv).replacement =
        OpenResult.ok nc ∧
        release ⟨[], 5⟩ ⟨0⟩ ⟨false, true, OpenResult.ok ⟨2⟩⟩ =
          ⟨([] : List Conn) ++ [nc], 5⟩) ∨
      ((∀ nc, (⟨false, true, OpenResult.ok ⟨2⟩⟩ : ReleaseEnv).replacement ≠
          OpenResult.ok nc) ∧
        release ⟨[], 5⟩ ⟨0⟩ ⟨false, true, OpenResult.ok ⟨2⟩⟩ =
          ⟨[], 5 - 1⟩))
    ∧ (∀ (lenv : LeaseEnv) (r : Nat) (m : String),
        (withConnection ⟨[], 5⟩ lenv (fun _ => Except.ok r)).2 =
          (withConnection ⟨[], 5⟩ lenv
            (fun _ => (Except.error m : Except String Nat))).2) :=
  c5_dead_release ⟨[], 5⟩ ⟨0⟩ ⟨false, true, OpenResult.ok ⟨2⟩⟩ rfl rfl

/-- C9: a handle opened by the checkout-timeout fallback never changes
`active_connections`: the open does not increment the counter, and when the
handle passes the liveness probe at release it is enqueued still uncounted —
a fallback acquire followed by a live release grows the available queue by
one and leaves the counter exactly as it was. -/
theorem c9_fallback_uncounted (s : PoolState) (c : Conn) (renv : ReleaseEnv)
    (hq : s.queue = []) (halive : renv.alive = true) :
    (acquire s (OpenResult.ok c)).1 = AcquireResult.fresh c
    ∧ (acquire s (OpenResult.ok c)).2.active = s.active
    ∧ (release (acquire s (OpenResult.ok c)).2 c renv).active = s.active
    ∧ (release (acquire s (OpenResult.ok c)).2 c renv).queue.length =
        s.queue.length + 1 := by
  refine ⟨by simp [acquire, hq], by simp [acquire, hq], ?_, ?_⟩
  · simp [acquire, hq, release, halive]
  · simp [acquire, hq, release, halive]

/-- Witness for C9 at a concrete pool with an empty queue and counter 2. -/
theorem c9_fallback_uncounted_witness :
    (acquire ⟨[], 2⟩ (OpenResult.ok ⟨9⟩)).1 = AcquireResult.fresh ⟨9⟩
    ∧ (acquire ⟨[], 2⟩ (OpenResult.ok ⟨9⟩)).2.active = (⟨[], 2⟩ : PoolState).active
    ∧ (release (acquire ⟨[], 2⟩ (OpenResult.ok ⟨9⟩)).2 ⟨9⟩
        ⟨true, true, OpenResult.nullConn⟩).active = (⟨[], 2⟩ : PoolState).active
    ∧ (release (acquire ⟨[], 2⟩ (OpenResult.ok ⟨9⟩)).2 ⟨9⟩
        ⟨true, true, OpenResult.nullConn⟩).queue.length =
        (⟨[], 2⟩ : PoolState).queue.length + 1 :=
  c9_fallback_uncounted ⟨[], 2⟩ ⟨9⟩ ⟨true, true, OpenResult.nullConn⟩ rfl rfl

/-- When the checkout succeeds, a management run yields the body's reply
(`Except.ok`), releases the leased connection, and applies exactly the
body's invalidations to the cache. -/
theorem runMgmt_ok {α : Type} (pool : PoolState) (cache : VMInfoCache α)
    (lenv : LeaseEnv) (body : OpResult × List String × Nat)
    (hacq : ∀ m, (acquire pool lenv.fallbackOpen).1 ≠ AcquireResult.failed m) :
    ∃ c, runMgmt pool cache lenv body =
      (Except.ok body.1,
        release (acquire pool lenv.fallbackOpen).2 c lenv.releaseEnv,
        body.2.1.foldl (fun cc k => cc.invalidate (some k)) cache,
        body.2.2) := by
  rcases hres : acquire pool lenv.fallbackOpen with ⟨ar, s1⟩
  cases ar with
  | fromPool c =>
      refine ⟨c, ?_⟩
      unfold runMgmt
      rw [hres]
  | fresh c =>
      refine ⟨c, ?_⟩
      unfold runMgmt
      rw [hres]
  | failed m =>
      exact absurd (by rw [hres]) (hacq m)

/-- Reply, invalidation-list and verb-count analysis of the start_vm body:
success exactly when lookup, the not-active precondition and the verb all
succeed; failures invalidate nothing; success invalidates the VM key then
the sentinel key and runs the verb once. -/
theorem startVMBody_spec (denv : DomainEnv) (nm : String) :
    ((startVMBody denv nm).1.success = true ↔
      (denv.lookup = Except.ok () ∧ denv.isActive = Except.ok false ∧
        denv.verb = Except.ok ()))
    ∧ ((startVMBody denv nm).1.success = false →
        (startVMBody denv nm).2.1 = [])
    ∧ ((startVMBody denv nm).1.success = true →
        (startVMBody denv nm).2.1 = [nm, "_all_vms_"] ∧
        (startVMBody denv nm).2.2 = 1) := by
  obtain ⟨lk, ia, vb⟩ := denv
  cases lk with
  | error m => simp [startVMBody]
  | ok u =>
      cases u
      cases ia with
      | error m => simp [startVMBody]
      | ok b =>
          cases b
          · cases vb with
            | error m => simp [startVMBody]
            | ok u =>
                cases u
                simp [startVMBody]
          · simp [startVMBody]

/-- Reply, invalidation-list and verb-count analysis of the stop_vm body
(the precondition is an active domain; the verb is destroy or shutdown). -/
theorem stopVMBody_spec (denv : DomainEnv) (nm : String) (force : Bool) :
    ((stopVMBody denv nm force).1.success = true ↔
      (denv.lookup = Except.ok () ∧ denv.isActive = Except.ok true ∧
        denv.verb = Except.ok ()))
    ∧ ((stopVMBody denv nm force).1.success = false →
        (stopVMBody denv nm force).2.1 = [])
    ∧ ((stopVMBody denv nm force).1.success = true →
        (stopVMBody denv nm force).2.1 = [nm, "_all_vms_"] ∧
        (stopVMBody denv nm force).2.2 = 1) := by
  obtain ⟨lk, ia, vb⟩ := denv
  cases lk with
  | error m => simp [stopVMBody]
  | ok u =>
      cases u
      cases ia with
      | error m => simp [stopVMBody]
      | ok b =>
          cases b
          · simp [stopVMBody]
          · cases vb with
            | error m => simp [stopVMBody]
            | ok u =>
                cases u
                simp [stopVMBody]

/-- Reply, invalidation-list and verb-count analysis of the reboot_vm
body. -/
theorem rebootVMBody_spec (denv : DomainEnv) (nm : String) :
    ((rebootVMBody denv nm).1.success = true ↔
      (denv.lookup = Except.ok () ∧ denv.isActive = Except.ok true ∧
        denv.verb = Except.ok ()))
    ∧ ((rebootVMBody denv nm).1.success = false →
        (rebootVMBody denv nm).2.1 = [])
    ∧ ((rebootVMBody denv nm).1.success = true →
        (rebootVMBody denv nm).2.1 = [nm, "_all_vms_"] ∧
        (rebootVMBody denv nm).2.2 = 1) := by
  obtain ⟨lk, ia, vb⟩ := denv
  cases lk with
  | error m => simp [rebootVMBody]
  | ok u =>
      cases u
      cases ia with
      | error m => simp [rebootVMBody]
      | ok b =>
          cases b
          · simp [rebootVMBody]
          · cases vb with
            | error m => simp [rebootVMBody]
            | ok u =>
                cases u
                simp [rebootVMBody]

/-- A successful management run from a non-empty pool performs one verb,
makes the VM key and the sentinel key miss, and hands the leased head
connection back to the tail of the queue without changing the counter. -/
theorem runMgmt_success_effects {α : Type} (pool : PoolState)
    (cache : VMInfoCache α) (lenv : LeaseEnv)
    (body : OpResult × List String × Nat) (nm : String) (c0 : Conn)
    (rest : List Conn) (hq : pool.queue = c0 :: rest)
    (halive : lenv.releaseEnv.alive = true)
    (hinv : body.1.success = true →
      body.2.1 = [nm, "_all_vms_"] ∧ body.2.2 = 1) :
    ∀ (r : OpResult) (pool' : PoolState) (cache' : VMInfoCache α) (n : Nat)
      (t : Int),
      runMgmt pool cache lenv body = (Except.ok r, pool', cache', n) →
      r.success = true →
      n = 1 ∧ (cache'.get t nm).1 = none ∧
        (cache'.get t "_all_vms_").1 = none ∧
        pool'.queue = rest ++ [c0] ∧ pool'.active = pool.active := by
  intro r pool' cache' n t hrun hsucc
  have hacq : acquire pool lenv.fallbackOpen =
      (AcquireResult.fromPool c0, { pool with queue := rest }) := by
    simp [acquire, hq]
  unfold runMgmt at hrun
  rw [hacq] at hrun
  simp only [Prod.mk.injEq, Except.ok.injEq] at hrun
  obtain ⟨hr, hpool, hcache, hn⟩ := hrun
  have hbsucc : body.1.success = true := by rw [hr]; exact hsucc
  obtain ⟨hkeys, hcount⟩ := hinv hbsucc
  refine ⟨by rw [← hn, hcount], ?_, ?_, ?_, ?_⟩
  · rw [← hcache, hkeys]
    exact (invalidate_two_get cache nm t).1
  · rw [← hcache, hkeys]
    exact (invalidate_two_get cache nm t).2
  · rw [← hpool]
    simp [release, halive]
  · rw [← hpool]
    simp [release, halive]

/-- C10: start_vm, stop_vm and reboot_vm never propagate a hypervisor-domain
exception to their caller: whenever the connection checkout succeeds the
reply is a dict (`Except.ok`), whose `success` flag is true exactly when the
lookup succeeds, the activity precondition holds, and the verb succeeds — so
every libvirt domain error and every precondition failure (starting a
running VM, stopping or rebooting a non-running VM) comes back as a
`success = False` dict — and every `success = False` reply leaves the cache
exactly as it was: no invalidation is performed on error. -/
theorem c10_no_domain_exception {α : Type} (pool : PoolState)
    (cache : VMInfoCache α) (lenv : LeaseEnv) (denv : DomainEnv)
    (nm : String) (force : Bool)
    (hacq : ∀ m, (acquire pool lenv.fallbackOpen).1 ≠ AcquireResult.failed m) :
    (∃ r pool' cache' n,
      startVM pool cache lenv denv nm = (Except.ok r, pool', cache', n) ∧
      (r.success = true ↔ (denv.lookup = Except.ok () ∧
        denv.isActive = Except.ok false ∧ denv.verb = Except.ok ())) ∧
      (r.success = false → cache' = cache))
    ∧ (∃ r pool' cache' n,
      stopVM pool cache lenv denv nm force = (Except.ok r, pool', cache', n) ∧
      (r.success = true ↔ (denv.lookup = Except.ok () ∧
        denv.isActive = Except.ok true ∧ denv.verb = Except.ok ())) ∧
      (r.success = false → cache' = cache))
    ∧ (∃ r pool' cache' n,
      rebootVM pool cache lenv denv nm = (Except.ok r, pool', cache', n) ∧
      (r.success = true ↔ (denv.lookup = Except.ok () ∧
        denv.isActive = Except.ok true ∧ denv.verb = Except.ok ())) ∧
      (r.success = false → cache' = cache)) := by
  refine ⟨?_, ?_, ?_⟩
  · rcases runMgmt_ok pool cache lenv (startVMBody denv nm) hacq with ⟨c, hrun⟩
    rcases startVMBody_spec denv nm with ⟨hiff, hfail, -⟩
    refine ⟨(startVMBody denv nm).1, _, _, _, hrun, hiff, fun hf => ?_⟩
    rw [hfail hf]
    rfl
  · rcases runMgmt_ok pool cache lenv (stopVMBody denv nm force) hacq with
      ⟨c, hrun⟩
    rcases stopVMBody_spec denv nm force with ⟨hiff, hfail, -⟩
    refine ⟨(stopVMBody denv nm force).1, _, _, _, hrun, hiff, fun hf => ?_⟩
    rw [hfail hf]
    rfl
  · rcases runMgmt_ok pool cache lenv (rebootVMBody denv nm) hacq with
      ⟨c, hrun⟩
    rcases rebootVMBody_spec denv nm with ⟨hiff, hfail, -⟩
    refine ⟨(rebootVMBody denv nm).1, _, _, _, hrun, hiff, fun hf => ?_⟩
    rw [hfail hf]
    rfl

/-- Witness for C10 at concrete inputs: one pooled connection, a domain
whose lookup raises "domain not found". -/
theorem c10_no_domain_exception_witness :
    (∃ r pool' cache' n,
      startVM ⟨[⟨1⟩], 1⟩ (⟨50, 60, [⟨"x", 3, 0⟩]⟩ : VMInfoCache Nat)
          ⟨OpenResult.nullConn, ⟨true, true, OpenResult.nullConn⟩⟩
          ⟨Except.error "domain not found", Except.ok false, Except.ok ()⟩
          "x" = (Except.ok r, pool', cache', n) ∧
      (r.success = true ↔
        ((Except.error "domain not found" : Except String Unit) =
            Except.ok () ∧
          (Except.ok false : Except String Bool) = Except.ok false ∧
          (Except.ok () : Except String Unit) = Except.ok ())) ∧
      (r.success = false → cache' = ⟨50, 60, [⟨"x", 3, 0⟩]⟩))
    ∧ (∃ r pool' cache' n,
      stopVM ⟨[⟨1⟩], 1⟩ (⟨50, 60, [⟨"x", 3, 0⟩]⟩ : VMInfoCache Nat)
          ⟨OpenResult.nullConn, ⟨true, true, OpenResult.nullConn⟩⟩
          ⟨Except.error "domain not found", Except.ok false, Except.ok ()⟩
          "x" false = (Except.ok r, pool', cache', n) ∧
      (r.success = true ↔
        ((Except.error "domain not found" : Except String Unit) =
            Except.ok () ∧
          (Except.ok false : Except String Bool) = Except.ok true ∧
          (Except.ok () : Except String Unit) = Except.ok ())) ∧
      (r.success = false → cache' = ⟨50, 60, [⟨"x", 3, 0⟩]⟩))
    ∧ (∃ r pool' cache' n,
      rebootVM ⟨[⟨1⟩], 1⟩ (⟨50, 60, [⟨"x", 3, 0⟩]⟩ : VMInfoCache Nat)
          ⟨OpenResult.nullConn, ⟨true, true, OpenResult.nullConn⟩⟩
          ⟨Except.error "domain not found", Except.ok false, Except.ok ()⟩
          "x" = (Except.ok r, pool', cache', n) ∧
      (r.success = true ↔
        ((Except.error "domain not found" : Except String Unit) =
            Except.ok () ∧
          (Except.ok false : Except String Bool) = Except.ok true ∧
          (Except.ok () : Except String Unit) = Except.ok ())) ∧
      (r.success = false → cache' = ⟨50, 60, [⟨"x", 3, 0⟩]⟩)) :=
  c10_no_domain_exception ⟨[⟨1⟩], 1⟩ (⟨50, 60, [⟨"x", 3, 0⟩]⟩ : VMInfoCache Nat)
    ⟨OpenResult.nullConn, ⟨true, true, OpenResult.nullConn⟩⟩
    ⟨Except.error "domain not found", Except.ok false, Except.ok ()⟩ "x" false
    (by intro m h; simp [acquire] at h)

/-- C1 counterexample: create_vm is one of the four mutating operations the
claim quantifies over, yet a fully successful run performs no cache
invalidation at all — creation.py never references `vm_info_cache` (nor the
connection pool; it shells out to virt-install) — so an immediately
subsequent `get("_all_vms_")` still hits instead of missing, here returning
the stale snapshot 7. -/
theorem c1_counterexample :
    (createVM
        ⟨some "x", some 512, some 2, 20, "brforvms", some "base.qcow2", true⟩
        ⟨true, false, true, true, true⟩).1 =
      ⟨"success", "VM x created successfully using virt-install"⟩ ∧
    ((createVM
        ⟨some "x", some 512, some 2, 20, "brforvms", some "base.qcow2", true⟩
        ⟨true, false, true, true, true⟩).2.foldl
        (fun cc k => cc.invalidate (some k))
        (⟨50, 60, [⟨"_all_vms_", 7, 0⟩]⟩ : VMInfoCache Nat)).get 1
        "_all_vms_" =
      (some 7, ⟨50, 60, [⟨"_all_vms_", 7, 0⟩]⟩) := by
  constructor
  · decide
  · decide

/-- C1 (amended): for start_vm, stop_vm and reboot_vm — but not create_vm,
which performs no pool lease and no invalidation (see the counterexample) —
every successful run leases the pooled connection (the queue head is taken
and, live, returned to the tail, with the counter unchanged), performs
exactly one hypervisor verb, and invalidates both the VM key and the
sentinel key "_all_vms_" before returning, so that an immediately
subsequent cache `get` on either key reports a miss. -/
theorem c1_mutators_invalidate {α : Type} (pool : PoolState)
    (cache : VMInfoCache α) (lenv : LeaseEnv) (denv : DomainEnv)
    (nm : String) (force : Bool) (t : Int) (c0 : Conn) (rest : List Conn)
    (hq : pool.queue = c0 :: rest) (halive : lenv.releaseEnv.alive = true) :
    (∀ (r : OpResult) (pool' : PoolState) (cache' : VMInfoCache α) (n : Nat),
      startVM pool cache lenv denv nm = (Except.ok r, pool', cache', n) →
      r.success = true →
      n = 1 ∧ (cache'.get t nm).1 = none ∧
        (cache'.get t "_all_vms_").1 = none ∧
        pool'.queue = rest ++ [c0] ∧ pool'.active = pool.active)
    ∧ (∀ (r : OpResult) (pool' : PoolState) (cache' : VMInfoCache α) (n : Nat),
      stopVM pool cache lenv denv nm force = (Except.ok r, pool', cache', n) →
      r.success = true →
      n = 1 ∧ (cache'.get t nm).1 = none ∧
        (cache'.get t "_all_vms_").1 = none ∧
        pool'.queue = rest ++ [c0] ∧ pool'.active = pool.active)
    ∧ (∀ (r : OpResult) (pool' : PoolState) (cache' : VMInfoCache α) (n : Nat),
      rebootVM pool cache lenv denv nm = (Except.ok r, pool', cache', n) →
      r.success = true →
      n = 1 ∧ (cache'.get t nm).1 = none ∧
        (cache'.get t "_all_vms_").1 = none ∧
        pool'.queue = rest ++ [c0] ∧ pool'.active = pool.active) := by
  refine ⟨?_, ?_, ?_⟩
  · intro r pool' cache' n hrun hsucc
    exact runMgmt_success_effects pool cache lenv (startVMBody denv nm) nm c0
      rest hq halive (startVMBody_spec denv nm).2.2 r pool' cache' n t hrun
      hsucc
  · intro r pool' cache' n hrun hsucc
    exact runMgmt_success_effects pool cache lenv (stopVMBody denv nm force)
      nm c0 rest hq halive (stopVMBody_spec denv nm force).2.2 r pool' cache'
      n t hrun hsucc
  · intro r pool' cache' n hrun hsucc
    exact runMgmt_success_effects pool cache lenv (rebootVMBody denv nm) nm c0
      rest hq halive (rebootVMBody_spec denv nm).2.2 r pool' cache' n t hrun
      hsucc

/-- Witness for C1 (amended): a fully successful start_vm at concrete
inputs — one pooled connection, domain found and not active, verb
succeeds. -/
theorem c1_mutators_invalidate_witness :
    (∀ (r : OpResult) (pool' : PoolState) (cache' : VMInfoCache Nat) (n : Nat),
      startVM ⟨[⟨1⟩], 1⟩ (⟨50, 60, [⟨"x", 3, 0⟩, ⟨"_all_vms_", 4, 0⟩]⟩ :
          VMInfoCache Nat)
        ⟨OpenResult.nullConn, ⟨true, true, OpenResult.nullConn⟩⟩
        ⟨Except.ok (), Except.ok false, Except.ok ()⟩ "x" =
        (Except.ok r, pool', cache', n) →
      r.success = true →
      n = 1 ∧ (cache'.get 5 "x").1 = none ∧
        (cache'.get 5 "_all_vms_").1 = none ∧
        pool'.queue = [] ++ [⟨1⟩] ∧
        pool'.active = (⟨[⟨1⟩], 1⟩ : PoolState).active)
    ∧ (∀ (r : OpResult) (pool' : PoolState) (cache' : VMInfoCache Nat) (n : Nat),
      stopVM ⟨[⟨1⟩], 1⟩ (⟨50, 60, [⟨"x", 3, 0⟩, ⟨"_all_vms_", 4, 0⟩]⟩ :
          VMInfoCache Nat)
        ⟨OpenResult.nullConn, ⟨true, true, OpenResult.nullConn⟩⟩
        ⟨Except.ok (), Except.ok false, Except.ok ()⟩ "x" false =
        (Except.ok r, pool', cache', n) →
      r.success = true →
      n = 1 ∧ (cache'.get 5 "x").1 = none ∧
        (cache'.get 5 "_all_vms_").1 = none ∧
        pool'.queue = [] ++ [⟨1⟩] ∧
        pool'.active = (⟨[⟨1⟩], 1⟩ : PoolState).active)
    ∧ (∀ (r : OpResult) (pool' : PoolState) (cache' : VMInfoCache Nat) (n : Nat),
      rebootVM ⟨[⟨1⟩], 1⟩ (⟨50, 60, [⟨"x", 3, 0⟩, ⟨"_all_vms_", 4, 0⟩]⟩ :
          VMInfoCache Nat)
        ⟨OpenResult.nullConn, ⟨true, true, OpenResult.nullConn⟩⟩
        ⟨Except.ok (), Except.ok false, Except.ok ()⟩ "x" =
        (Except.ok r, pool', cache', n) →
      r.success = true →
      n = 1 ∧ (cache'.get 5 "x").1 = none ∧
        (cache'.get 5 "_all_vms_").1 = none ∧
        pool'.queue = [] ++ [⟨1⟩] ∧
        pool'.active = (⟨[⟨1⟩], 1⟩ : PoolState).active) :=
  c1_mutators_invalidate ⟨[⟨1⟩], 1⟩
    (⟨50, 60, [⟨"x", 3, 0⟩, ⟨"_all_vms_", 4, 0⟩]⟩ : VMInfoCache Nat)
    ⟨OpenResult.nullConn, ⟨true, true, OpenResult.nullConn⟩⟩
    ⟨Except.ok (), Except.ok false, Except.ok ()⟩ "x" false 5 ⟨1⟩ [] rfl rfl

/-- C2 counterexample: with the empty inventory (and the deployed cache
parameters `max_size = 50`, `ttl = 60`), the first call stores the empty
snapshot under "_all_vms_", but `if cached_list:` treats the cached empty
list as falsy, so the second call one second later — within the TTL window
and with no intervening mutation — enumerates the hypervisor again: both
calls report that the enumeration ran, i.e. it ran twice, not once. -/
theorem c2_counterexample :
    listVms ⟨50, 60, []⟩ 0 true [] =
      some ([], ⟨50, 60, [⟨"_all_vms_", [], 0⟩]⟩, true) ∧
    listVms ⟨50, 60, [⟨"_all_vms_", [], 0⟩]⟩ 1 true [] =
      some ([], ⟨50, 60, [⟨"_all_vms_", [], 1⟩]⟩, true) := by
  constructor
  · decide
  · decide

/-- C2 (amended): for every inventory whose enumerated snapshot is
non-empty, with cache parameters `max_size = 50` and `ttl = 60`, calling
list_vms with `use_cache = True` twice within 60 seconds and with no
intervening mutation enumerates the hypervisor exactly once: the first call
misses, enumerates, and stores the snapshot under the sentinel key; the
second call returns that stored snapshot from the cache without
enumerating.  (For the empty inventory the truthiness guard re-enumerates —
see the counterexample.) -/
theorem c2_list_caching (ds : List DomainEntry) (t1 t2 : Int)
    (hne : enumerate ds ≠ []) (ht : t2 - t1 < 60) :
    listVms ⟨50, 60, []⟩ t1 true ds =
      some (enumerate ds, ⟨50, 60, [⟨"_all_vms_", enumerate ds, t1⟩]⟩, true) ∧
    listVms ⟨50, 60, [⟨"_all_vms_", enumerate ds, t1⟩]⟩ t2 true ds =
      some (enumerate ds, ⟨50, 60, [⟨"_all_vms_", enumerate ds, t1⟩]⟩,
        false) := by
  constructor
  · simp [listVms, VMInfoCache.get, VMInfoCache.set, upsert]
  · have hfind :
        ([⟨"_all_vms_", enumerate ds, t1⟩] :
            List (Entry Snapshot)).find? (fun e => e.key == "_all_vms_") =
          some ⟨"_all_vms_", enumerate ds, t1⟩ := by
      simp [List.find?]
    simp [listVms, VMInfoCache.get, hfind, ht, List.isEmpty_iff, hne]

/-- Witness for C2 (amended): a one-domain inventory queried at times 0 and
30. -/
theorem c2_list_caching_witness :
    listVms ⟨50, 60, []⟩ 0 true [⟨false, 1, "vm1", 3, false, true⟩] =
      some (enumerate [⟨false, 1, "vm1", 3, false, true⟩],
        ⟨50, 60, [⟨"_all_vms_",
          enumerate [⟨false, 1, "vm1", 3, false, true⟩], 0⟩]⟩, true) ∧
    listVms
        ⟨50, 60, [⟨"_all_vms_",
          enumerate [⟨false, 1, "vm1", 3, false, true⟩], 0⟩]⟩ 30 true
        [⟨false, 1, "vm1", 3, false, true⟩] =
      some (enumerate [⟨false, 1, "vm1", 3, false, true⟩],
        ⟨50, 60, [⟨"_all_vms_",
          enumerate [⟨false, 1, "vm1", 3, false, true⟩], 0⟩]⟩, false) :=
  c2_list_caching [⟨false, 1, "vm1", 3, false, true⟩] 0 30 (by decide)
    (by decide)

end KvmMcp
